import Mathlib

/-
Verification of the compatibility scoring engine of SpotifyAIDJ
(src/lib/compatibility.ts, current revision: the one defining
SharedArtists, weight redistribution and fixed message strings).

JavaScript numbers are modelled as rationals (ℚ); Math.round x is ⌊x + 1/2⌋,
which is Mathlib's `round`.  A JavaScript division whose denominator is 0
(0/0 = NaN for the Jaccard ratios) is modelled by returning `none`.
-/

/-- Audio feature vector of a track, as in the AudioFeatures interface of
src/lib/compatibility.ts: danceability, energy, tempo, valence, acousticness,
instrumentalness. -/
structure AudioFeatures where
  danceability : ℚ
  energy : ℚ
  tempo : ℚ
  valence : ℚ
  acousticness : ℚ
  instrumentalness : ℚ
deriving DecidableEq, Repr

/-- An artist as consumed by the engine: id, name, genre list, and the list
of image urls (the code reads images[0].url when present). -/
structure Artist where
  id : String
  name : String
  genres : List String
  images : List String
deriving DecidableEq, Repr

/-- A track; the engine only uses the id. -/
structure Track where
  id : String
  name : String
deriving DecidableEq, Repr

/-- The id set built by new Set(artists.map(artist => artist.id)). -/
def artistIdSet (artists : List Artist) : Finset String :=
  (artists.map (fun a => a.id)).toFinset

/-- The id set built by new Set(tracks.map(track => track.id)). -/
def trackIdSet (tracks : List Track) : Finset String :=
  (tracks.map (fun t => t.id)).toFinset

/-- The genre set built by new Set(artists.flatMap(artist => artist.genres)). -/
def genreSet (artists : List Artist) : Finset String :=
  (artists.flatMap (fun a => a.genres)).toFinset

/-- The Jaccard ratio exactly as the source computes it:
intersection = new Set([...set1].filter(x => set2.has(x))),
union = new Set([...set1, ...set2]), result = intersection.size / union.size.
When the union is empty the JavaScript division is 0/0 = NaN, modelled as
`none`; otherwise the finite quotient is returned. -/
def jsJaccard (set1 set2 : Finset String) : Option ℚ :=
  let intersection := set1.filter (fun x => x ∈ set2)
  let union := set1 ∪ set2
  if union.card = 0 then none
  else some ((intersection.card : ℚ) / (union.card : ℚ))

/-- calculateArtistOverlap, src/lib/compatibility.ts lines 407-418. -/
def calculateArtistOverlap (artists1 artists2 : List Artist) : Option ℚ :=
  jsJaccard (artistIdSet artists1) (artistIdSet artists2)

/-- calculateGenreOverlap, src/lib/compatibility.ts lines 420-431. -/
def calculateGenreOverlap (artists1 artists2 : List Artist) : Option ℚ :=
  jsJaccard (genreSet artists1) (genreSet artists2)

/-- calculateTrackOverlap, src/lib/compatibility.ts lines 433-444. -/
def calculateTrackOverlap (tracks1 tracks2 : List Track) : Option ℚ :=
  jsJaccard (trackIdSet tracks1) (trackIdSet tracks2)

/-- calculateAverageFeatures, src/lib/compatibility.ts lines 446-477: sum the
six dimensions with reduce and divide by `features.length || 1` (the guard
makes the divisor 1 on an empty list). -/
def calculateAverageFeatures (features : List AudioFeatures) : AudioFeatures :=
  let sum := features.foldl (fun (acc curr : AudioFeatures) =>
    { danceability := acc.danceability + curr.danceability
      energy := acc.energy + curr.energy
      tempo := acc.tempo + curr.tempo
      valence := acc.valence + curr.valence
      acousticness := acc.acousticness + curr.acousticness
      instrumentalness := acc.instrumentalness + curr.instrumentalness })
    { danceability := 0, energy := 0, tempo := 0, valence := 0,
      acousticness := 0, instrumentalness := 0 }
  let count : ℚ := if features.length = 0 then 1 else (features.length : ℚ)
  { danceability := sum.danceability / count
    energy := sum.energy / count
    tempo := sum.tempo / count
    valence := sum.valence / count
    acousticness := sum.acousticness / count
    instrumentalness := sum.instrumentalness / count }

/-- calculateFeatureSimilarity, src/lib/compatibility.ts lines 508-522: five
absolute differences of the 0-1 dimensions, plus the absolute tempo
difference divided by 200, averaged; result is max(0, 1 - mean). -/
def calculateFeatureSimilarity (features1 features2 : AudioFeatures) : ℚ :=
  let diffs : List ℚ :=
    [ |features1.danceability - features2.danceability|,
      |features1.energy - features2.energy|,
      |features1.valence - features2.valence|,
      |features1.acousticness - features2.acousticness|,
      |features1.instrumentalness - features2.instrumentalness| ]
  let normalizedTempoDiff : ℚ := |features1.tempo - features2.tempo| / 200
  let diffs := diffs ++ [normalizedTempoDiff]
  let similarity := 1 - (diffs.foldl (fun a b => a + b) 0 / (diffs.length : ℚ))
  max 0 similarity

/-- calculateAudioFeaturesSimilarity, src/lib/compatibility.ts lines 479-506.
The Spotify batch fetch is modelled as a function from the requested track
ids (at most the first 100) to the returned list of possibly-null feature
objects; `.filter(f => f)` drops the nulls.  Early returns of 0 on an empty
id list or an empty filtered feature list are kept; the function is total,
so the catch-and-return-0 branch has nothing left to catch. -/
def calculateAudioFeaturesSimilarity
    (fetch1 fetch2 : List String → List (Option AudioFeatures))
    (trackIds1 trackIds2 : List String) : ℚ :=
  if trackIds1.length = 0 ∨ trackIds2.length = 0 then 0
  else
    let features1 := (fetch1 (trackIds1.take 100)).filterMap id
    let features2 := (fetch2 (trackIds2.take 100)).filterMap id
    if features1.length = 0 ∨ features2.length = 0 then 0
    else
      calculateFeatureSimilarity (calculateAverageFeatures features1)
        (calculateAverageFeatures features2)

/-- The weights record of calculateCompatibility. -/
structure Weights where
  artists : ℚ
  genres : ℚ
  tracks : ℚ
  audioFeatures : ℚ
deriving DecidableEq, Repr

/-- Weight selection in calculateCompatibility, src/lib/compatibility.ts
lines 358-370: defaults 0.3/0.3/0.2/0.2, overwritten to 0.35/0.35/0.3/0 when
audioFeaturesScore === 0. -/
def chooseWeights (audioFeaturesScore : ℚ) : Weights :=
  let weights : Weights :=
    { artists := 0.3, genres := 0.3, tracks := 0.2, audioFeatures := 0.2 }
  if audioFeaturesScore = 0 then
    { artists := 0.35, genres := 0.35, tracks := 0.3, audioFeatures := 0 }
  else weights

/-- finalScore in calculateCompatibility, src/lib/compatibility.ts lines
372-377: Math.round of the weighted sum times 100. -/
def computeFinalScore
    (artistOverlap genreOverlap trackOverlap audioFeaturesScore : ℚ) : ℤ :=
  let weights := chooseWeights audioFeaturesScore
  round ((artistOverlap * weights.artists + genreOverlap * weights.genres +
    trackOverlap * weights.tracks +
    audioFeaturesScore * weights.audioFeatures) * 100)

/-- An entry of sharedArtists.exact: name, id, optional first image url. -/
structure ExactArtist where
  name : String
  id : String
  image : Option String
deriving DecidableEq, Repr

/-- Name and genres of one side of a similar-artist pair. -/
structure ArtistNameGenres where
  name : String
  genres : List String
deriving DecidableEq, Repr

/-- An entry of sharedArtists.similar. -/
structure SimilarPair where
  user1Artist : ArtistNameGenres
  user2Artist : ArtistNameGenres
  sharedGenres : List String
deriving DecidableEq, Repr

/-- The SharedArtists evidence record. -/
structure SharedArtists where
  exact : List ExactArtist
  similar : List SimilarPair
deriving DecidableEq, Repr

/-- Shared-artist evidence, mirroring the two forEach/push loops of
calculateCompatibility, src/lib/compatibility.ts lines 315-344: exact
collects user2 artists whose id is in user1's id set; similar collects, for
each ordered pair with distinct ids, the pairs whose genre intersection
(artist1.genres.filter(g => artist2.genres.includes(g))) is non-empty. -/
def computeSharedArtists (user1Artists user2Artists : List Artist) : SharedArtists :=
  let user1ArtistIds := artistIdSet user1Artists
  let exact := user2Artists.foldl (fun acc artist =>
    if artist.id ∈ user1ArtistIds then
      acc ++ [{ name := artist.name, id := artist.id,
                image := artist.images.head? : ExactArtist }]
    else acc) []
  let similar := user1Artists.foldl (fun acc artist1 =>
    user2Artists.foldl (fun acc artist2 =>
      if artist1.id ≠ artist2.id then
        let sharedGenres := artist1.genres.filter (fun g => artist2.genres.contains g)
        if 0 < sharedGenres.length then
          acc ++ [{ user1Artist := { name := artist1.name, genres := artist1.genres }
                    user2Artist := { name := artist2.name, genres := artist2.genres }
                    sharedGenres := sharedGenres : SimilarPair }]
        else acc
      else acc) acc) []
  { exact := exact, similar := similar }

/-- Spec-side description of the exact list: exactly those artists in user2's
list whose id appears in user1's id set, carrying name, id and optional
image. -/
def exactSpec (user1Artists user2Artists : List Artist) : List ExactArtist :=
  (user2Artists.filter (fun a => a.id ∈ artistIdSet user1Artists)).map
    (fun a => { name := a.name, id := a.id, image := a.images.head? })

/-- Spec-side description of the similar list: one record for every ordered
pair (artist1 from user1's list, artist2 from user2's list) with distinct ids
whose genre intersection is non-empty. -/
def similarSpec (user1Artists user2Artists : List Artist) : List SimilarPair :=
  user1Artists.flatMap (fun artist1 =>
    user2Artists.flatMap (fun artist2 =>
      if artist1.id ≠ artist2.id ∧
          artist1.genres.filter (fun g => artist2.genres.contains g) ≠ [] then
        [{ user1Artist := { name := artist1.name, genres := artist1.genres }
           user2Artist := { name := artist2.name, genres := artist2.genres }
           sharedGenres := artist1.genres.filter (fun g => artist2.genres.contains g) }]
      else []))

/-- The four message strings returned by generateCompatibilityMessages. -/
structure Messages where
  overall : String
  artistMessage : String
  genreMessage : String
  playlistMessage : String
deriving DecidableEq, Repr

/-- generateCompatibilityMessages, src/lib/compatibility.ts lines 524-569.
Apostrophes in the source strings are written with the \x27 escape.  In the
similar-artist branch the source reads sharedGenres[0]; on an empty list a
JavaScript template literal renders that as the text undefined, modelled with
headD. -/
def generateCompatibilityMessages (score : ℤ) (sharedArtists : SharedArtists) :
    Messages :=
  let overall :=
    if 80 ≤ score then
      "Wow, you two are practically musical soulmates! Your tastes align beautifully."
    else if 60 ≤ score then
      "You\x27ve got great compatibility! There\x27s a lot of common ground here."
    else if 40 ≤ score then
      "Decent compatibility. You share some common artists and genres, but there\x27s room to explore!"
    else
      "Your tastes are quite different, but hey, opposites attract, right? Or maybe not in music..."
  let artistMessage :=
    if 0 < sharedArtists.exact.length then
      let topShared :=
        String.intercalate ", " ((sharedArtists.exact.take 3).map (fun a => a.name))
      let base := "You both love " ++ topShared ++ "! That\x27s a great starting point."
      if 3 < sharedArtists.exact.length then
        base ++ " And " ++ toString (sharedArtists.exact.length - 3) ++ " more!"
      else base
    else if 0 < sharedArtists.similar.length then
      match sharedArtists.similar with
      | [] => ""
      | firstSimilar :: _ =>
        "While you don\x27t share exact top artists, you both like artists in the " ++
          firstSimilar.sharedGenres.headD "undefined" ++ " genre, like " ++
          firstSimilar.user1Artist.name ++ " and " ++ firstSimilar.user2Artist.name ++ "."
    else
      "You don\x27t have many overlapping top artists. Time to introduce each other to some new tunes!"
  let genreMessage :=
    if 70 ≤ score then "Your genre preferences are a strong match!"
    else if 50 ≤ score then "You\x27ve got some solid genre overlap."
    else "Your preferred genres might be a bit different, offering a chance for musical discovery."
  let playlistMessage :=
    "We\x27ve created a special \x27Compatibility Mix\x27 for you. Check it out on Spotify!"
  { overall := overall, artistMessage := artistMessage,
    genreMessage := genreMessage, playlistMessage := playlistMessage }

/-- Spec-side headline band of the overall message: thresholds at 80, 60, 40,
with a fourth band below, each mapped to a fixed string. -/
def overallBand (score : ℤ) : String :=
  if 80 ≤ score then
    "Wow, you two are practically musical soulmates! Your tastes align beautifully."
  else if 60 ≤ score then
    "You\x27ve got great compatibility! There\x27s a lot of common ground here."
  else if 40 ≤ score then
    "Decent compatibility. You share some common artists and genres, but there\x27s room to explore!"
  else
    "Your tastes are quite different, but hey, opposites attract, right? Or maybe not in music..."

/-- Claim C1: the spec requires the three Jaccard overlaps to be 0 when both
input sets are empty; the code instead computes 0/0, which is NaN in
JavaScript (`none` in this model), for empty artist lists, empty genre sets,
and empty track lists alike. -/
theorem empty_sets_give_nan :
    calculateArtistOverlap [] [] = none ∧
    calculateGenreOverlap [] [] = none ∧
    calculateTrackOverlap [] [] = none := by
  refine ⟨?_, ?_, ?_⟩ <;> rfl

/-- Claim C10: averaging an empty feature list returns the all-zero vector,
because the divisor `features.length || 1` is guarded to 1. -/
theorem average_of_empty_is_zero :
    calculateAverageFeatures [] =
      { danceability := 0, energy := 0, tempo := 0, valence := 0,
        acousticness := 0, instrumentalness := 0 } := by
  simp [calculateAverageFeatures]

/-- Closed form of calculateFeatureSimilarity: max(0, 1 - mean of the six
normalized absolute differences). -/
lemma calculateFeatureSimilarity_eq (features1 features2 : AudioFeatures) :
    calculateFeatureSimilarity features1 features2 =
      max 0 (1 -
        (|features1.danceability - features2.danceability| +
         |features1.energy - features2.energy| +
         |features1.valence - features2.valence| +
         |features1.acousticness - features2.acousticness| +
         |features1.instrumentalness - features2.instrumentalness| +
         |features1.tempo - features2.tempo| / 200) / 6) := by
  simp only [calculateFeatureSimilarity, List.cons_append, List.nil_append,
    List.foldl_cons, List.foldl_nil, List.length_cons, List.length_nil]
  norm_num

/-- Claim C3: the audio-feature similarity equals
max(0, 1 - mean of the six per-dimension absolute differences), the five 0-1
dimensions differenced directly and the tempo difference divided by the fixed
constant 200. -/
theorem featureSimilarity_closed_form (features1 features2 : AudioFeatures) :
    calculateFeatureSimilarity features1 features2 =
      max 0 (1 -
        (|features1.danceability - features2.danceability| +
         |features1.energy - features2.energy| +
         |features1.valence - features2.valence| +
         |features1.acousticness - features2.acousticness| +
         |features1.instrumentalness - features2.instrumentalness| +
         |features1.tempo - features2.tempo| / 200) / 6) :=
  calculateFeatureSimilarity_eq features1 features2

/-- Claim C7: identical averaged vectors give similarity 1; vectors with the
five 0-1 dimensions at opposite extremes and tempo difference at least the
normalization constant 200 give similarity 0. -/
theorem featureSimilarity_extremes :
    (∀ f : AudioFeatures, calculateFeatureSimilarity f f = 1) ∧
    (∀ f1 f2 : AudioFeatures,
      |f1.danceability - f2.danceability| = 1 →
      |f1.energy - f2.energy| = 1 →
      |f1.valence - f2.valence| = 1 →
      |f1.acousticness - f2.acousticness| = 1 →
      |f1.instrumentalness - f2.instrumentalness| = 1 →
      200 ≤ |f1.tempo - f2.tempo| →
      calculateFeatureSimilarity f1 f2 = 0) := by
  constructor
  · intro f
    rw [calculateFeatureSimilarity_eq]
    simp
  · intro f1 f2 h1 h2 h3 h4 h5 ht
    rw [calculateFeatureSimilarity_eq, h1, h2, h3, h4, h5]
    have htt : (1 : ℚ) ≤ |f1.tempo - f2.tempo| / 200 := by linarith
    rw [max_eq_left (by linarith)]

/-- Witness for C7 at concrete feature vectors. -/
theorem featureSimilarity_extremes_witness :
    calculateFeatureSimilarity
        { danceability := 0.5, energy := 0.5, tempo := 120, valence := 0.5,
          acousticness := 0.5, instrumentalness := 0.5 }
        { danceability := 0.5, energy := 0.5, tempo := 120, valence := 0.5,
          acousticness := 0.5, instrumentalness := 0.5 } = 1 ∧
    calculateFeatureSimilarity
        { danceability := 0, energy := 0, tempo := 0, valence := 0,
          acousticness := 0, instrumentalness := 0 }
        { danceability := 1, energy := 1, tempo := 200, valence := 1,
          acousticness := 1, instrumentalness := 1 } = 0 := by
  constructor
  · exact featureSimilarity_extremes.1 _
  · exact featureSimilarity_extremes.2 _ _ (by norm_num) (by norm_num) (by norm_num)
      (by norm_num) (by norm_num) (by norm_num)

/-- The exact-artist forEach/push loop accumulates filter-then-map. -/
lemma exact_foldl_eq (user1Artists : List Artist) (l : List Artist) :
    ∀ init : List ExactArtist,
      l.foldl (fun acc artist =>
        if artist.id ∈ artistIdSet user1Artists then
          acc ++ [{ name := artist.name, id := artist.id,
                    image := artist.images.head? : ExactArtist }]
        else acc) init
      = init ++ exactSpec user1Artists l := by
  induction l with
  | nil => intro init; simp [exactSpec]
  | cons a l ih =>
    intro init
    rw [List.foldl_cons]
    by_cases h : a.id ∈ artistIdSet user1Artists
    · rw [if_pos h, ih]
      simp [exactSpec, List.filter_cons, h]
    · rw [if_neg h, ih]
      simp [exactSpec, List.filter_cons, h]

/-- The inner similar-artist forEach loop over user2's artists accumulates a
flatMap of singleton-or-empty contributions. -/
lemma similar_inner_foldl_eq (artist1 : Artist) (l : List Artist) :
    ∀ acc : List SimilarPair,
      l.foldl (fun acc artist2 =>
        if artist1.id ≠ artist2.id then
          let sharedGenres := artist1.genres.filter (fun g => artist2.genres.contains g)
          if 0 < sharedGenres.length then
            acc ++ [{ user1Artist := { name := artist1.name, genres := artist1.genres }
                      user2Artist := { name := artist2.name, genres := artist2.genres }
                      sharedGenres := sharedGenres : SimilarPair }]
          else acc
        else acc) acc
      = acc ++ l.flatMap (fun artist2 =>
          if artist1.id ≠ artist2.id ∧
              artist1.genres.filter (fun g => artist2.genres.contains g) ≠ [] then
            [{ user1Artist := { name := artist1.name, genres := artist1.genres }
               user2Artist := { name := artist2.name, genres := artist2.genres }
               sharedGenres := artist1.genres.filter (fun g => artist2.genres.contains g) }]
          else []) := by
  induction l with
  | nil => intro acc; simp
  | cons b l ih =>
    intro acc
    rw [List.foldl_cons, List.flatMap_cons]
    by_cases hid : artist1.id ≠ b.id
    · by_cases hg : artist1.genres.filter (fun g => b.genres.contains g) = []
      · rw [if_pos hid]
        dsimp only
        rw [hg]
        simp only [List.length_nil, lt_self_iff_false, if_false]
        rw [ih, if_neg (fun hc => hc.2 rfl)]
        simp
      · rw [if_pos hid]
        dsimp only
        rw [if_pos (List.length_pos.mpr hg), ih, if_pos ⟨hid, hg⟩, List.append_assoc]
    · rw [if_neg hid, ih, if_neg (fun hc => hid hc.1)]
      simp

/-- The outer similar-artist forEach loop accumulates the nested flatMap. -/
lemma similar_outer_foldl_eq (user2Artists : List Artist) (l : List Artist) :
    ∀ acc : List SimilarPair,
      l.foldl (fun acc artist1 =>
        user2Artists.foldl (fun acc artist2 =>
          if artist1.id ≠ artist2.id then
            let sharedGenres := artist1.genres.filter (fun g => artist2.genres.contains g)
            if 0 < sharedGenres.length then
              acc ++ [{ user1Artist := { name := artist1.name, genres := artist1.genres }
                        user2Artist := { name := artist2.name, genres := artist2.genres }
                        sharedGenres := sharedGenres : SimilarPair }]
            else acc
          else acc) acc) acc
      = acc ++ l.flatMap (fun artist1 =>
          user2Artists.flatMap (fun artist2 =>
            if artist1.id ≠ artist2.id ∧
                artist1.genres.filter (fun g => artist2.genres.contains g) ≠ [] then
              [{ user1Artist := { name := artist1.name, genres := artist1.genres }
                 user2Artist := { name := artist2.name, genres := artist2.genres }
                 sharedGenres := artist1.genres.filter (fun g => artist2.genres.contains g) }]
            else [])) := by
  induction l with
  | nil => intro acc; simp
  | cons a l ih =>
    intro acc
    rw [List.foldl_cons, similar_inner_foldl_eq, ih, List.flatMap_cons,
      List.append_assoc]

/-- Claim C5: the imperative shared-artist evidence equals its declarative
description: exact is exactly user2's artists whose id lies in user1's id
set (with name, id, optional image), and similar holds one record per
ordered pair of distinct-id artists with non-empty genre intersection. -/
theorem sharedArtists_characterization (user1Artists user2Artists : List Artist) :
    computeSharedArtists user1Artists user2Artists =
      { exact := exactSpec user1Artists user2Artists,
        similar := similarSpec user1Artists user2Artists } := by
  simp only [computeSharedArtists]
  rw [exact_foldl_eq, similar_outer_foldl_eq]
  simp [similarSpec]

/-- The source's Jaccard computation is symmetric in its two sets. -/
lemma jsJaccard_comm (s1 s2 : Finset String) : jsJaccard s1 s2 = jsJaccard s2 s1 := by
  unfold jsJaccard
  rw [Finset.filter_mem_eq_inter, Finset.filter_mem_eq_inter, Finset.inter_comm,
    Finset.union_comm]

/-- The source's Jaccard computation on a nonempty set against itself is 1. -/
lemma jsJaccard_self (s : Finset String) (h : s.Nonempty) : jsJaccard s s = some 1 := by
  unfold jsJaccard
  rw [Finset.filter_mem_eq_inter, Finset.inter_self, Finset.union_self,
    if_neg (Finset.card_ne_zero.mpr h)]
  rw [div_self (Nat.cast_ne_zero.mpr (Finset.card_ne_zero.mpr h))]

/-- The source's Jaccard computation on disjoint sets with nonempty union
is 0. -/
lemma jsJaccard_disjoint (s1 s2 : Finset String) (hd : Disjoint s1 s2)
    (hu : (s1 ∪ s2).Nonempty) : jsJaccard s1 s2 = some 0 := by
  unfold jsJaccard
  rw [Finset.filter_mem_eq_inter, Finset.disjoint_iff_inter_eq_empty.mp hd,
    if_neg (Finset.card_ne_zero.mpr hu)]
  simp

/-- A nonempty left part makes the union nonempty. -/
lemma union_nonempty_left (s1 s2 : Finset String) (h : s1.Nonempty) :
    (s1 ∪ s2).Nonempty :=
  ⟨h.choose, Finset.mem_union_left _ h.choose_spec⟩

/-- Claim C6: on nonempty id (resp. genre) sets, each of the three overlap
functions is symmetric, equals 1 on identical inputs, and equals 0 on
disjoint inputs. -/
theorem overlap_laws :
    (∀ artists1 artists2 : List Artist,
      (artistIdSet artists1).Nonempty → (artistIdSet artists2).Nonempty →
      calculateArtistOverlap artists1 artists2 = calculateArtistOverlap artists2 artists1) ∧
    (∀ artists : List Artist, (artistIdSet artists).Nonempty →
      calculateArtistOverlap artists artists = some 1) ∧
    (∀ artists1 artists2 : List Artist,
      (artistIdSet artists1).Nonempty → (artistIdSet artists2).Nonempty →
      Disjoint (artistIdSet artists1) (artistIdSet artists2) →
      calculateArtistOverlap artists1 artists2 = some 0) ∧
    (∀ artists1 artists2 : List Artist,
      (genreSet artists1).Nonempty → (genreSet artists2).Nonempty →
      calculateGenreOverlap artists1 artists2 = calculateGenreOverlap artists2 artists1) ∧
    (∀ artists : List Artist, (genreSet artists).Nonempty →
      calculateGenreOverlap artists artists = some 1) ∧
    (∀ artists1 artists2 : List Artist,
      (genreSet artists1).Nonempty → (genreSet artists2).Nonempty →
      Disjoint (genreSet artists1) (genreSet artists2) →
      calculateGenreOverlap artists1 artists2 = some 0) ∧
    (∀ tracks1 tracks2 : List Track,
      (trackIdSet tracks1).Nonempty → (trackIdSet tracks2).Nonempty →
      calculateTrackOverlap tracks1 tracks2 = calculateTrackOverlap tracks2 tracks1) ∧
    (∀ tracks : List Track, (trackIdSet tracks).Nonempty →
      calculateTrackOverlap tracks tracks = some 1) ∧
    (∀ tracks1 tracks2 : List Track,
      (trackIdSet tracks1).Nonempty → (trackIdSet tracks2).Nonempty →
      Disjoint (trackIdSet tracks1) (trackIdSet tracks2) →
      calculateTrackOverlap tracks1 tracks2 = some 0) := by
  refine ⟨fun a1 a2 _ _ => jsJaccard_comm _ _,
    fun a h => jsJaccard_self _ h,
    fun a1 a2 h1 _ hd => jsJaccard_disjoint _ _ hd (union_nonempty_left _ _ h1),
    fun a1 a2 _ _ => jsJaccard_comm _ _,
    fun a h => jsJaccard_self _ h,
    fun a1 a2 h1 _ hd => jsJaccard_disjoint _ _ hd (union_nonempty_left _ _ h1),
    fun t1 t2 _ _ => jsJaccard_comm _ _,
    fun t h => jsJaccard_self _ h,
    fun t1 t2 h1 _ hd => jsJaccard_disjoint _ _ hd (union_nonempty_left _ _ h1)⟩

/-- Witness for C6 at concrete one-element inputs. -/
theorem overlap_laws_witness :
    calculateArtistOverlap [{ id := "a1", name := "A", genres := ["pop"], images := [] }]
      [{ id := "a1", name := "A", genres := ["pop"], images := [] }] = some 1 ∧
    calculateGenreOverlap [{ id := "a1", name := "A", genres := ["pop"], images := [] }]
      [{ id := "a2", name := "B", genres := ["rock"], images := [] }] =
      calculateGenreOverlap [{ id := "a2", name := "B", genres := ["rock"], images := [] }]
        [{ id := "a1", name := "A", genres := ["pop"], images := [] }] ∧
    calculateTrackOverlap [{ id := "t1", name := "T" }] [{ id := "t2", name := "U" }] =
      some 0 :=
  ⟨overlap_laws.2.1 _ (by decide),
    overlap_laws.2.2.2.1 _ _ (by decide) (by decide),
    overlap_laws.2.2.2.2.2.2.2.2 _ _ (by decide) (by decide) (by decide)⟩

/-- Rounding a rational that lies in [0, 100] lands in [0, 100]. -/
lemma round_range_of_le (x : ℚ) (h0 : 0 ≤ x) (h1 : x ≤ 100) :
    0 ≤ round x ∧ round x ≤ 100 := by
  rw [round_eq]
  constructor
  · exact Int.le_floor.mpr (by push_cast; linarith)
  · have hlt : x + 1 / 2 < ((101 : ℤ) : ℚ) := by push_cast; linarith
    have := Int.floor_lt.mpr hlt
    omega

/-- chooseWeights at a zero audio score: the redistributed weights. -/
lemma chooseWeights_zero :
    chooseWeights 0 =
      { artists := 0.35, genres := 0.35, tracks := 0.3, audioFeatures := 0 } := by
  simp [chooseWeights]

/-- chooseWeights at a nonzero audio score: the default weights. -/
lemma chooseWeights_of_ne (f : ℚ) (hf : f ≠ 0) :
    chooseWeights f =
      { artists := 0.3, genres := 0.3, tracks := 0.2, audioFeatures := 0.2 } := by
  simp [chooseWeights, hf]

/-- computeFinalScore unfolded to its rounding expression. -/
lemma computeFinalScore_eq (a g t f : ℚ) :
    computeFinalScore a g t f =
      round ((a * (chooseWeights f).artists + g * (chooseWeights f).genres +
        t * (chooseWeights f).tracks + f * (chooseWeights f).audioFeatures) * 100) :=
  rfl

/-- Claim C2: with metrics in [0, 1], the final score is
round(100 (0.3 a + 0.3 g + 0.2 t + 0.2 f)) when f is nonzero, and
round(100 (0.35 a + 0.35 g + 0.3 t)) when f is zero. -/
theorem finalScore_formula
    (artistOverlap genreOverlap trackOverlap audioFeaturesScore : ℚ)
    (ha0 : 0 ≤ artistOverlap) (ha1 : artistOverlap ≤ 1)
    (hg0 : 0 ≤ genreOverlap) (hg1 : genreOverlap ≤ 1)
    (ht0 : 0 ≤ trackOverlap) (ht1 : trackOverlap ≤ 1)
    (hf0 : 0 ≤ audioFeaturesScore) (hf1 : audioFeaturesScore ≤ 1) :
    (audioFeaturesScore ≠ 0 →
      computeFinalScore artistOverlap genreOverlap trackOverlap audioFeaturesScore =
        round ((100 : ℚ) * (0.3 * artistOverlap + 0.3 * genreOverlap +
          0.2 * trackOverlap + 0.2 * audioFeaturesScore))) ∧
    (audioFeaturesScore = 0 →
      computeFinalScore artistOverlap genreOverlap trackOverlap audioFeaturesScore =
        round ((100 : ℚ) * (0.35 * artistOverlap + 0.35 * genreOverlap +
          0.3 * trackOverlap))) := by
  constructor
  · intro hf
    rw [computeFinalScore_eq, chooseWeights_of_ne _ hf]
    dsimp only
    congr 1
    ring
  · intro hf
    subst hf
    rw [computeFinalScore_eq, chooseWeights_zero]
    dsimp only
    congr 1
    ring

/-- Witness for C2 at concrete metric values. -/
theorem finalScore_formula_witness :
    computeFinalScore (1/2) (1/2) (1/2) (1/2) =
      round ((100 : ℚ) * (0.3 * (1/2) + 0.3 * (1/2) + 0.2 * (1/2) + 0.2 * (1/2))) ∧
    computeFinalScore (1/2) (1/2) (1/2) 0 =
      round ((100 : ℚ) * (0.35 * (1/2) + 0.35 * (1/2) + 0.3 * (1/2))) := by
  constructor
  · exact (finalScore_formula (1/2) (1/2) (1/2) (1/2) (by norm_num) (by norm_num)
      (by norm_num) (by norm_num) (by norm_num) (by norm_num) (by norm_num)
      (by norm_num)).1 (by norm_num)
  · exact (finalScore_formula (1/2) (1/2) (1/2) 0 (by norm_num) (by norm_num)
      (by norm_num) (by norm_num) (by norm_num) (by norm_num) (by norm_num)
      (by norm_num)).2 rfl

/-- Claim C8: with each metric in [0, 1], the rounded score is an integer in
[0, 100], and the active weights sum to 1, so no explicit clamping is
needed. -/
theorem finalScore_range
    (artistOverlap genreOverlap trackOverlap audioFeaturesScore : ℚ)
    (ha0 : 0 ≤ artistOverlap) (ha1 : artistOverlap ≤ 1)
    (hg0 : 0 ≤ genreOverlap) (hg1 : genreOverlap ≤ 1)
    (ht0 : 0 ≤ trackOverlap) (ht1 : trackOverlap ≤ 1)
    (hf0 : 0 ≤ audioFeaturesScore) (hf1 : audioFeaturesScore ≤ 1) :
    (0 ≤ computeFinalScore artistOverlap genreOverlap trackOverlap audioFeaturesScore ∧
      computeFinalScore artistOverlap genreOverlap trackOverlap audioFeaturesScore ≤ 100) ∧
    (chooseWeights audioFeaturesScore).artists + (chooseWeights audioFeaturesScore).genres +
      (chooseWeights audioFeaturesScore).tracks +
      (chooseWeights audioFeaturesScore).audioFeatures = 1 := by
  by_cases hf : audioFeaturesScore = 0
  · subst hf
    rw [computeFinalScore_eq, chooseWeights_zero]
    dsimp only
    refine ⟨round_range_of_le _ (by nlinarith) (by nlinarith), by norm_num⟩
  · rw [computeFinalScore_eq, chooseWeights_of_ne _ hf]
    dsimp only
    refine ⟨round_range_of_le _ (by nlinarith) (by nlinarith), by norm_num⟩

/-- Witness for C8 at concrete metric values. -/
theorem finalScore_range_witness :
    (0 ≤ computeFinalScore (1/2) (1/3) (1/4) (1/5) ∧
      computeFinalScore (1/2) (1/3) (1/4) (1/5) ≤ 100) ∧
    (chooseWeights (1/5)).artists + (chooseWeights (1/5)).genres +
      (chooseWeights (1/5)).tracks + (chooseWeights (1/5)).audioFeatures = 1 :=
  finalScore_range (1/2) (1/3) (1/4) (1/5) (by norm_num) (by norm_num) (by norm_num)
    (by norm_num) (by norm_num) (by norm_num) (by norm_num) (by norm_num)

/-- Claim C4: if either user contributes no usable feature vectors (an empty
track-id list, or every fetched feature entry null so the filtered list is
empty), the audio-feature similarity is exactly 0; the model is a total
function, so the condition is recovered locally rather than raised. -/
theorem audioFeatures_missing_gives_zero
    (fetch1 fetch2 : List String → List (Option AudioFeatures))
    (trackIds1 trackIds2 : List String)
    (h : trackIds1 = [] ∨ trackIds2 = [] ∨
      (fetch1 (trackIds1.take 100)).filterMap id = [] ∨
      (fetch2 (trackIds2.take 100)).filterMap id = []) :
    calculateAudioFeaturesSimilarity fetch1 fetch2 trackIds1 trackIds2 = 0 := by
  by_cases h1 : trackIds1 = []
  · simp [calculateAudioFeaturesSimilarity, h1]
  · by_cases h2 : trackIds2 = []
    · simp [calculateAudioFeaturesSimilarity, h2]
    · rcases h with h | h | h | h
      · exact absurd h h1
      · exact absurd h h2
      · simp [calculateAudioFeaturesSimilarity, h1, h2, h]
      · simp [calculateAudioFeaturesSimilarity, h1, h2, h]

/-- Witness for C4: one null batch for user 1 drives the score to 0. -/
theorem audioFeatures_missing_gives_zero_witness :
    calculateAudioFeaturesSimilarity (fun _ => [none]) (fun _ => [none])
      ["t1"] ["t2"] = 0 :=
  audioFeatures_missing_gives_zero _ _ _ _ (Or.inr (Or.inr (Or.inl rfl)))

/-- Claim C9: the overall headline is a pure function of the score alone,
banded at the thresholds 80, 60 and 40, each band a fixed string. -/
theorem overall_message_banding (score : ℤ) (sharedArtists : SharedArtists) :
    (generateCompatibilityMessages score sharedArtists).overall = overallBand score :=
  rfl
